import Mathlib

/-!
Verification of the agent bootstrap in `src/agent/src/agent.py`:
the environment-variable startup check, the model-backend selector,
the MCP configuration loader and the Tavily search-tool adapter.

The Python module is shallowly embedded: the outside world (environment
variables, the filesystem, `json.load`, `load_mcp_servers`, the Tavily
client) is a record of functions `World`, Python exceptions are an
inductive `PyExc`, and fallible calls return `Except PyExc _`.
-/

namespace Agent

/-- Python exceptions relevant to the module: the four specific classes the
MCP loader catches, `ValueError` raised by the startup check, and a catch-all
for every other `Exception` subclass (carrying the class name and message). -/
inductive PyExc where
  | fileNotFound (msg : String)
  | jsonDecode (msg : String)
  | importError (msg : String)
  | calledProcessError (msg : String)
  | valueError (msg : String)
  | other (className : String) (msg : String)
deriving DecidableEq, Repr

/-- Python `str(e)`: the message carried by the exception. -/
def PyExc.message : PyExc → String
  | .fileNotFound m => m
  | .jsonDecode m => m
  | .importError m => m
  | .calledProcessError m => m
  | .valueError m => m
  | .other _ m => m

/-- The parsed JSON configuration document, as far as the loader inspects it:
`config_data.get('mcpServers', {})` is only read for its length (logging). -/
structure ConfigData where
  mcpServers : List String
deriving DecidableEq, Repr

/-- An opaque MCP server handle as returned by `load_mcp_servers`. -/
structure MCPServer where
  name : String
deriving DecidableEq, Repr

/-- One item of the Tavily provider's `results` list: a dict whose fields may
each be absent (`result.get(key, default)` supplies the default). -/
structure TavilyItem where
  title : Option String
  url : Option String
  content : Option String
  score : Option Float
deriving Repr

/-- The dict returned by `tavily_client.search`: `results` and `answer` keys
may be absent. -/
structure TavilyResponse where
  results : Option (List TavilyItem)
  answer : Option String
deriving Repr

/-- The exact keyword arguments of one `tavily_client.search` invocation. -/
structure TavilyParams where
  query : String
  search_depth : String
  include_answer : Bool
  max_results : Nat
  include_raw_content : Bool
deriving DecidableEq, Repr

/-- The outside world the module interacts with: `os.getenv`,
`os.path.exists`, `json.load`, `pydantic_ai.mcp.load_mcp_servers` and the
Tavily client's `search`, each fallible call returning `Except`. -/
structure World where
  getenv : String → Option String
  exists_file : String → Bool
  json_load : String → Except PyExc ConfigData
  load_mcp_servers : String → Except PyExc (List MCPServer)
  tavily : TavilyParams → Except PyExc TavilyResponse

/-- Python truthiness test `not os.getenv(key)`: `None` and the empty string
are falsy, every other string is truthy. -/
def py_falsy : Option String → Bool
  | none => true
  | some s => s.isEmpty

/-- Python `str.lower()`: lower-case every character of the string. -/
def py_lower (s : String) : String :=
  String.mk (s.data.map Char.toLower)

/-- Line 43: `use_llm_farm = os.getenv("USE_LLM_FARM", "false").lower() == "true"`. -/
def use_llm_farm (w : World) : Bool :=
  py_lower ((w.getenv "USE_LLM_FARM").getD "false") == "true"

/-- Lines 45-51: the list of required environment variables per backend. -/
def required_keys (w : World) : List String :=
  if use_llm_farm w then ["LLM_FARM_API_KEY", "TAVILY_API_KEY"]
  else ["OPENAI_API_KEY", "TAVILY_API_KEY"]

/-- Line 47: `llm_farm_url = os.getenv("LLM_FARM_URL", "https://...")`
(only bound on the LLM Farm branch; the default is the literal in the source). -/
def llm_farm_url (w : World) : String :=
  (w.getenv "LLM_FARM_URL").getD
    "https://aoai-farm.bosch-temp.com/api/openai/deployments/askbosch-prod-farm-openai-gpt-4o-mini-2024-07-18/"

/-- Line 53: `missing_keys = [key for key in required_keys if not os.getenv(key)]`. -/
def missing_keys (w : World) : List String :=
  (required_keys w).filter (fun key => py_falsy (w.getenv key))

/-- Python `", ".join(missing_keys)`. -/
def join_keys (keys : List String) : String :=
  String.intercalate ", " keys

/-- Lines 89-106: each `except` clause of `load_mcp_config` returns the empty
list (after logging). All five clauses together cover every `PyExc`. -/
def handle_load_exc : PyExc → List MCPServer
  | .fileNotFound _ => []
  | .jsonDecode _ => []
  | .importError _ => []
  | .calledProcessError _ => []
  | .valueError _ => []
  | .other _ _ => []

/-- Lines 66-106, `load_mcp_config(config_path)`: if the file exists, parse it
with `json.load` and hand the path to `load_mcp_servers`; if it does not
exist, fall back once to `"mcp_config_minimal.json"` when the path is not
already that file and the fallback exists, else return `[]`. Any exception
raised inside the `try` block is caught by one of the `except` clauses
(`handle_load_exc`), which all return `[]`. -/
def load_mcp_config (w : World) (config_path : String) : List MCPServer :=
  if w.exists_file config_path then
    match w.json_load config_path with
    | .error e => handle_load_exc e
    | .ok _config_data =>
      match w.load_mcp_servers config_path with
      | .error e => handle_load_exc e
      | .ok mcp_servers => mcp_servers
  else
    if h : ¬(config_path = "mcp_config_minimal.json")
        ∧ w.exists_file "mcp_config_minimal.json" then
      load_mcp_config w "mcp_config_minimal.json"
    else
      []
termination_by (if config_path = "mcp_config_minimal.json" then 0 else 1 : Nat)
decreasing_by simp [h.1]

/-- The `try` block of `load_mcp_config` (lines 68-88) on its own, with
exceptions propagating instead of being caught: `.error e` means the block
raises `e`.  The recursive fallback call is the already-handled
`load_mcp_config`, exactly as in the source (the inner call catches its own
exceptions, so the block itself cannot raise there). -/
def load_try_block (w : World) (config_path : String) : Except PyExc (List MCPServer) :=
  if w.exists_file config_path then
    match w.json_load config_path with
    | .error e => .error e
    | .ok _config_data =>
      match w.load_mcp_servers config_path with
      | .error e => .error e
      | .ok mcp_servers => .ok mcp_servers
  else
    if ¬(config_path = "mcp_config_minimal.json")
        ∧ w.exists_file "mcp_config_minimal.json" then
      .ok (load_mcp_config w "mcp_config_minimal.json")
    else
      .ok []

/-- Fuel-indexed variant of `load_mcp_config`: `none` marks fuel exhaustion,
i.e. a recursion deeper than the fuel allows. Used to bound the loader's
fallback recursion depth. -/
def load_mcp_config_fuel (w : World) : Nat → String → Option (List MCPServer)
  | 0, _ => none
  | fuel + 1, config_path =>
    if w.exists_file config_path then
      match w.json_load config_path with
      | .error e => some (handle_load_exc e)
      | .ok _config_data =>
        match w.load_mcp_servers config_path with
        | .error e => some (handle_load_exc e)
        | .ok mcp_servers => some mcp_servers
    else
      if ¬(config_path = "mcp_config_minimal.json")
          ∧ w.exists_file "mcp_config_minimal.json" then
        load_mcp_config_fuel w fuel "mcp_config_minimal.json"
      else
        some []

/-- The model handle `initialize_model` returns: either an `OpenAIChatModel`
built over a custom `AsyncOpenAI` client (LLM Farm branch, lines 128-142) or
the plain provider string (line 145). -/
inductive ModelHandle where
  | openaiChat (model_name : String) (base_url : String) (api_key : String)
      (default_headers : List (String × Option String))
      (default_query : List (String × String))
  | providerString (s : String)
deriving DecidableEq, Repr

/-- Lines 122-145, `initialize_model()`: on the LLM Farm branch build the
custom-endpoint handle with the subscription-key header and fixed api-version;
otherwise return the string `"openai:gpt-4o-mini"`. -/
def initialize_model (w : World) : ModelHandle :=
  if use_llm_farm w then
    .openaiChat "gpt-4o-mini" (llm_farm_url w) "dummy"
      [("genaiplatform-farm-subscription-key", w.getenv "LLM_FARM_API_KEY")]
      [("api-version", "2024-08-01-preview")]
  else
    .providerString "openai:gpt-4o-mini"

/-- The module-level state assembled by a successful import of `agent.py`. -/
structure AgentState where
  mcp_servers : List MCPServer
  model : ModelHandle
deriving Repr

/-- Module initialization (lines 41-147): the startup check at lines 53-57
raises `ValueError` naming the missing keys before anything else is built;
otherwise the MCP registry (line 109, default path `"mcp_config.json"`) and
the model handle (line 147) are constructed and the module import succeeds. -/
def module_init (w : World) : Except PyExc AgentState :=
  if (missing_keys w).isEmpty then
    .ok { mcp_servers := load_mcp_config w "mcp_config.json"
          model := initialize_model w }
  else
    .error (.valueError
      ("Missing required environment variables: " ++ join_keys (missing_keys w)))

/-- `SearchResult` (lines 150-155): one normalized search result. -/
structure SearchResult where
  title : String
  url : String
  content : String
  score : Float
deriving Repr

/-- `SearchResponse` (lines 158-162): the search tool's return record;
`answer` is `Optional[str]` in the source. -/
structure SearchResponse where
  query : String
  results : List SearchResult
  answer : Option String
deriving Repr

/-- The keyword arguments of the `tavily_client.search` call at
lines 253-259. -/
def tavily_request (query : String) : TavilyParams :=
  { query := query
    search_depth := "advanced"
    include_answer := true
    max_results := 5
    include_raw_content := true }

/-- Lines 232-301, `tavily_search(query)`: call the provider with the fixed
parameters; on success map each item of `search_result.get("results", [])`
to a `SearchResult` with per-field defaults and echo
`search_result.get("answer", "")`; on any exception return the structured
error response with empty results and the `"Search failed: "` answer. -/
def tavily_search (w : World) (query : String) : SearchResponse :=
  match w.tavily (tavily_request query) with
  | .ok search_result =>
    { query := query
      results := (search_result.results.getD []).map (fun result =>
        { title := result.title.getD ""
          url := result.url.getD ""
          content := result.content.getD ""
          score := result.score.getD 0.0 })
      answer := some (search_result.answer.getD "") }
  | .error e =>
    { query := query
      results := []
      answer := some ("Search failed: " ++ e.message) }

/-- Environment lookup built from an association list, for concrete worlds. -/
def getenvOf (l : List (String × String)) : String → Option String :=
  fun k => (l.find? (fun p => p.1 == k)).map (fun p => p.2)

/-- A Tavily stub for worlds whose scenario never reaches the search tool. -/
def stubTavily : TavilyParams → Except PyExc TavilyResponse :=
  fun _ => .error (.other "RuntimeError" "stub")

/-- Semantics of the `try`/`except` structure of `load_mcp_config`: the
function's value is the `try` block's value when the block does not raise and
the matching `except` clause's value when it does. -/
theorem load_mcp_config_eq_handled (w : World) (config_path : String) :
    load_mcp_config w config_path =
      match load_try_block w config_path with
      | .ok r => r
      | .error e => handle_load_exc e := by
  rw [load_mcp_config]
  unfold load_try_block
  by_cases hex : w.exists_file config_path
  · simp only [hex, if_true]
    cases w.json_load config_path with
    | error e => rfl
    | ok cfg =>
      cases w.load_mcp_servers config_path with
      | error e => rfl
      | ok servers => rfl
  · simp only [hex, Bool.false_eq_true, if_false]
    by_cases hfb : ¬(config_path = "mcp_config_minimal.json")
        ∧ w.exists_file "mcp_config_minimal.json"
    · simp [hfb]
    · simp [hfb]

/-- A key that is required and unset is reported missing. -/
theorem mem_missing_keys (w : World) (k : String)
    (hk : k ∈ required_keys w) (h : w.getenv k = none) : k ∈ missing_keys w := by
  unfold missing_keys
  rw [List.mem_filter]
  exact ⟨hk, by simp [py_falsy, h]⟩

/-- A nonempty missing-key list makes module import raise `ValueError`. -/
theorem module_init_error_of_missing (w : World) (h : missing_keys w ≠ []) :
    ∃ msg, module_init w = .error (.valueError msg) := by
  refine ⟨"Missing required environment variables: " ++ join_keys (missing_keys w), ?_⟩
  unfold module_init
  rw [if_neg]
  simp [List.isEmpty_iff, h]

/-- World for the C1 witness: the config file exists but its JSON is invalid. -/
def w_jsonfail : World :=
  { getenv := fun _ => none
    exists_file := fun _ => true
    json_load := fun _ => .error (.jsonDecode "Expecting value: line 1 column 1 (char 0)")
    load_mcp_servers := fun _ => .ok []
    tavily := stubTavily }

/-- C1: for every path argument, whenever the body of `load_mcp_config`
raises any exception (missing file, malformed JSON, missing dependencies,
subprocess failure, or any other exception), the exception is caught and the
function returns the empty registry instead of propagating. -/
theorem load_mcp_config_absorbs_failures (w : World) (config_path : String)
    (e : PyExc) (h : load_try_block w config_path = .error e) :
    load_mcp_config w config_path = [] := by
  rw [load_mcp_config_eq_handled, h]
  cases e <;> rfl

/-- Witness for C1: a world whose config file holds malformed JSON makes the
loader return the empty registry. -/
theorem load_mcp_config_absorbs_failures_witness :
    load_mcp_config w_jsonfail "mcp_config.json" = [] :=
  load_mcp_config_absorbs_failures w_jsonfail "mcp_config.json"
    (.jsonDecode "Expecting value: line 1 column 1 (char 0)") rfl

/-- World for the C3 witness: only the fallback file exists, and it loads to
one MCP server. -/
def w_fallback : World :=
  { getenv := fun _ => none
    exists_file := fun p => p == "mcp_config_minimal.json"
    json_load := fun _ => .ok { mcpServers := ["kubernetes"] }
    load_mcp_servers := fun _ => .ok [{ name := "kubernetes" }]
    tavily := stubTavily }

/-- C3: when the primary configuration path does not exist but
`"mcp_config_minimal.json"` exists and loads successfully, `load_mcp_config`
returns the registry obtained from the fallback file. -/
theorem load_mcp_config_fallback_registry (w : World) (cfg : ConfigData)
    (regs : List MCPServer)
    (h1 : w.exists_file "mcp_config.json" = false)
    (h2 : w.exists_file "mcp_config_minimal.json" = true)
    (h3 : w.json_load "mcp_config_minimal.json" = .ok cfg)
    (h4 : w.load_mcp_servers "mcp_config_minimal.json" = .ok regs) :
    load_mcp_config w "mcp_config.json" = regs := by
  rw [load_mcp_config]
  rw [if_neg (by simp [h1])]
  rw [dif_pos (by exact ⟨by decide, h2⟩)]
  rw [load_mcp_config]
  rw [if_pos h2, h3, h4]

/-- Witness for C3: with only the fallback file present and valid, the loader
returns the fallback's one-server registry. -/
theorem load_mcp_config_fallback_registry_witness :
    load_mcp_config w_fallback "mcp_config.json" = [{ name := "kubernetes" }] :=
  load_mcp_config_fallback_registry w_fallback { mcpServers := ["kubernetes"] }
    [{ name := "kubernetes" }] rfl rfl rfl rfl

/-- World for the C4 witness: neither configuration file exists. -/
def w_absent : World :=
  { getenv := fun _ => none
    exists_file := fun _ => false
    json_load := fun _ => .error (.fileNotFound "missing.json")
    load_mcp_servers := fun _ => .error (.fileNotFound "missing.json")
    tavily := stubTavily }

/-- C4: the loader terminates within two attempts — one fallback substitution
at most (fuel 2 never runs out) — and when both the given path and the
fallback file are absent it returns the empty registry. -/
theorem load_mcp_config_single_fallback (w : World) (config_path : String) :
    load_mcp_config_fuel w 2 config_path = some (load_mcp_config w config_path)
    ∧ ((w.exists_file config_path = false
        ∧ w.exists_file "mcp_config_minimal.json" = false) →
       load_mcp_config w config_path = []) := by
  constructor
  · rw [load_mcp_config]
    unfold load_mcp_config_fuel
    by_cases hex : w.exists_file config_path
    · simp only [hex, if_true]
      cases w.json_load config_path with
      | error e => rfl
      | ok cfg =>
        cases w.load_mcp_servers config_path with
        | error e => rfl
        | ok servers => rfl
    · simp only [hex, Bool.false_eq_true, if_false]
      by_cases hfb : ¬(config_path = "mcp_config_minimal.json")
          ∧ w.exists_file "mcp_config_minimal.json"
      · simp only [hfb, dif_pos, if_pos]
        unfold load_mcp_config_fuel
        rw [load_mcp_config]
        simp only [hfb.2, if_true]
        cases w.json_load "mcp_config_minimal.json" with
        | error e => rfl
        | ok cfg =>
          cases w.load_mcp_servers "mcp_config_minimal.json" with
          | error e => rfl
          | ok servers => rfl
      · simp [hfb]
  · intro h
    rw [load_mcp_config]
    rw [if_neg (by simp [h.1])]
    rw [dif_neg (by simp [h.2])]

/-- Witness for C4: with both files absent, fuel 2 suffices and the result is
the empty registry. -/
theorem load_mcp_config_single_fallback_witness :
    load_mcp_config_fuel w_absent 2 "mcp_config.json"
      = some (load_mcp_config w_absent "mcp_config.json")
    ∧ load_mcp_config w_absent "mcp_config.json" = [] :=
  ⟨(load_mcp_config_single_fallback w_absent "mcp_config.json").1,
   (load_mcp_config_single_fallback w_absent "mcp_config.json").2 ⟨rfl, rfl⟩⟩

/-- C5: for every world (any provider outcome) and every query, the
`SearchResponse` returned by `tavily_search` echoes the query exactly. -/
theorem tavily_search_query_roundtrip (w : World) (query : String) :
    (tavily_search w query).query = query := by
  unfold tavily_search
  cases w.tavily (tavily_request query) with
  | ok r => rfl
  | error e => rfl

/-- World for the C2 witness: the Tavily call raises a connection error. -/
def w_conn_err : World :=
  { getenv := fun _ => none
    exists_file := fun _ => false
    json_load := fun _ => .error (.fileNotFound "missing.json")
    load_mcp_servers := fun _ => .error (.fileNotFound "missing.json")
    tavily := fun _ => .error (.other "ConnectionError" "Connection refused") }

/-- C2: when the provider call raises any exception, `tavily_search` returns
a `SearchResponse` with empty results and answer `"Search failed: "` followed
by the exception's message; the exception never propagates (the function is
total by construction). -/
theorem tavily_search_error_response (w : World) (query : String) (e : PyExc)
    (h : w.tavily (tavily_request query) = .error e) :
    tavily_search w query =
      { query := query
        results := []
        answer := some ("Search failed: " ++ e.message) } := by
  unfold tavily_search
  rw [h]

/-- Witness for C2: a connection error on query `"x"` yields the structured
failure response. -/
theorem tavily_search_error_response_witness :
    tavily_search w_conn_err "x" =
      { query := "x"
        results := []
        answer := some "Search failed: Connection refused" } :=
  tavily_search_error_response w_conn_err "x"
    (.other "ConnectionError" "Connection refused") rfl

/-- Provider response with three items for the C6 witness: one complete item,
one with every optional field absent, one partially filled. -/
def respThree : TavilyResponse :=
  { results := some
      [{ title := some "Quantum computing"
         url := some "https://example.org/qc"
         content := some "Qubits and superposition."
         score := some 0.87 },
       { title := none, url := none, content := none, score := none },
       { title := some "QC news", url := none, content := some "Latest.", score := some 0.5 }]
    answer := some "Quantum computers use qubits." }

/-- World for the C6 witness: the Tavily call succeeds with `respThree`. -/
def w_three : World :=
  { getenv := fun _ => none
    exists_file := fun _ => false
    json_load := fun _ => .error (.fileNotFound "missing.json")
    load_mcp_servers := fun _ => .error (.fileNotFound "missing.json")
    tavily := fun _ => .ok respThree }

/-- C6: on a provider response with K items, `tavily_search` returns exactly
K results, each mapped in order with missing `title`/`url`/`content`
defaulting to `""` and missing `score` to `0.0`, and the answer equal to the
provider's answer string (empty string when the provider omitted it). -/
theorem tavily_search_success_mapping (w : World) (query : String)
    (resp : TavilyResponse) (h : w.tavily (tavily_request query) = .ok resp) :
    (tavily_search w query).results.length = (resp.results.getD []).length
    ∧ (tavily_search w query).results =
        (resp.results.getD []).map (fun result =>
          { title := result.title.getD ""
            url := result.url.getD ""
            content := result.content.getD ""
            score := result.score.getD 0.0 })
    ∧ (tavily_search w query).answer = some (resp.answer.getD "") := by
  unfold tavily_search
  rw [h]
  exact ⟨List.length_map _ _, rfl, rfl⟩

/-- Witness for C6: the three-item provider response is mapped to three
results, in order, with the documented defaults and the provider's answer. -/
theorem tavily_search_success_mapping_witness :
    (tavily_search w_three "quantum computing").results.length
      = (respThree.results.getD []).length
    ∧ (tavily_search w_three "quantum computing").results =
        (respThree.results.getD []).map (fun result =>
          { title := result.title.getD ""
            url := result.url.getD ""
            content := result.content.getD ""
            score := result.score.getD 0.0 })
    ∧ (tavily_search w_three "quantum computing").answer
        = some (respThree.answer.getD "") :=
  tavily_search_success_mapping w_three "quantum computing" respThree rfl

/-- Second world for the C7 witness: same Tavily behavior as `w_three`, all
other collaborators different. -/
def w_three_alt : World :=
  { getenv := fun _ => some "value"
    exists_file := fun _ => true
    json_load := fun _ => .ok { mcpServers := [] }
    load_mcp_servers := fun _ => .ok []
    tavily := fun _ => .ok respThree }

/-- C7: the provider is invoked exactly once with the fixed parameters —
depth `"advanced"`, `include_answer`, `max_results = 5`,
`include_raw_content` — and the query itself: the request record is exactly
that, and the tool's result depends on the provider only through its value at
that one request. -/
theorem tavily_search_fixed_params (query : String) :
    tavily_request query =
      { query := query
        search_depth := "advanced"
        include_answer := true
        max_results := 5
        include_raw_content := true }
    ∧ ∀ w w' : World,
        w.tavily (tavily_request query) = w'.tavily (tavily_request query) →
        tavily_search w query = tavily_search w' query := by
  refine ⟨rfl, fun w w' h => ?_⟩
  unfold tavily_search
  rw [h]

/-- Witness for C7: two worlds agreeing only on the Tavily call at the fixed
request produce identical responses, and the request record is the fixed one. -/
theorem tavily_search_fixed_params_witness :
    tavily_request "x" =
      { query := "x"
        search_depth := "advanced"
        include_answer := true
        max_results := 5
        include_raw_content := true }
    ∧ tavily_search w_three "x" = tavily_search w_three_alt "x" :=
  ⟨(tavily_search_fixed_params "x").1,
   (tavily_search_fixed_params "x").2 w_three w_three_alt rfl⟩

/-- World for the C8 witness: standard backend selected, OpenAI key present,
Tavily key absent. -/
def w_no_tavily : World :=
  { getenv := getenvOf [("OPENAI_API_KEY", "sk-test")]
    exists_file := fun _ => false
    json_load := fun _ => .error (.fileNotFound "missing.json")
    load_mcp_servers := fun _ => .error (.fileNotFound "missing.json")
    tavily := stubTavily }

/-- C8: whatever backend is selected, `TAVILY_API_KEY` is required: when it
is absent the key is reported missing and module initialization raises
`ValueError`, so no agent state (and no server) is ever produced. -/
theorem startup_requires_tavily_key (w : World)
    (h : w.getenv "TAVILY_API_KEY" = none) :
    "TAVILY_API_KEY" ∈ missing_keys w
    ∧ ∃ msg, module_init w = .error (.valueError msg) := by
  have hk : "TAVILY_API_KEY" ∈ required_keys w := by
    unfold required_keys
    by_cases hf : use_llm_farm w <;> simp [hf]
  have hm : "TAVILY_API_KEY" ∈ missing_keys w := mem_missing_keys w _ hk h
  exact ⟨hm, module_init_error_of_missing w (List.ne_nil_of_mem hm)⟩

/-- Witness for C8: a world with only the OpenAI key set fails module
initialization over the absent Tavily key. -/
theorem startup_requires_tavily_key_witness :
    "TAVILY_API_KEY" ∈ missing_keys w_no_tavily
    ∧ ∃ msg, module_init w_no_tavily = .error (.valueError msg) :=
  startup_requires_tavily_key w_no_tavily rfl

/-- World for the C9 counterexample: LLM Farm selected, both required keys
set, `LLM_FARM_URL` absent. -/
def w_farm_no_url : World :=
  { getenv := getenvOf
      [("USE_LLM_FARM", "true"), ("LLM_FARM_API_KEY", "farm-key"),
       ("TAVILY_API_KEY", "tvly-key")]
    exists_file := fun _ => false
    json_load := fun _ => .error (.fileNotFound "missing.json")
    load_mcp_servers := fun _ => .error (.fileNotFound "missing.json")
    tavily := stubTavily }

/-- Counterexample to C9 as stated: with the alternate backend selected and
`LLM_FARM_URL` absent from the environment, module initialization
nevertheless succeeds — the URL is not a required variable. -/
theorem llm_farm_url_absent_not_fatal :
    use_llm_farm w_farm_no_url = true
    ∧ w_farm_no_url.getenv "LLM_FARM_URL" = none
    ∧ (module_init w_farm_no_url).isOk = true :=
  ⟨by decide, rfl, by decide⟩

/-- World for the C9 witness: LLM Farm selected, its API key absent. -/
def w_farm_no_key : World :=
  { getenv := getenvOf [("USE_LLM_FARM", "true"), ("TAVILY_API_KEY", "tvly-key")]
    exists_file := fun _ => false
    json_load := fun _ => .error (.fileNotFound "missing.json")
    load_mcp_servers := fun _ => .error (.fileNotFound "missing.json")
    tavily := stubTavily }

/-- C9 (amended): with the alternate backend selected, the required variables
are exactly `LLM_FARM_API_KEY` and `TAVILY_API_KEY` — absence of either is
fatal at startup — while absence of `LLM_FARM_URL` is not fatal: the
built-in default endpoint URL is used instead. -/
theorem llm_farm_startup_requirements (w : World) (h : use_llm_farm w = true) :
    required_keys w = ["LLM_FARM_API_KEY", "TAVILY_API_KEY"]
    ∧ (∀ k, k ∈ required_keys w → w.getenv k = none →
        ∃ msg, module_init w = .error (.valueError msg))
    ∧ (w.getenv "LLM_FARM_URL" = none →
        llm_farm_url w =
          "https://aoai-farm.bosch-temp.com/api/openai/deployments/askbosch-prod-farm-openai-gpt-4o-mini-2024-07-18/") := by
  refine ⟨by simp [required_keys, h], fun k hk hnone => ?_, fun hurl => ?_⟩
  · exact module_init_error_of_missing w
      (List.ne_nil_of_mem (mem_missing_keys w k hk hnone))
  · simp [llm_farm_url, hurl]

/-- Witness for C9 (amended): LLM Farm selected with its API key absent is
fatal, and the default endpoint URL fills in for the absent `LLM_FARM_URL`. -/
theorem llm_farm_startup_requirements_witness :
    required_keys w_farm_no_key = ["LLM_FARM_API_KEY", "TAVILY_API_KEY"]
    ∧ (∃ msg, module_init w_farm_no_key = .error (.valueError msg))
    ∧ llm_farm_url w_farm_no_key =
        "https://aoai-farm.bosch-temp.com/api/openai/deployments/askbosch-prod-farm-openai-gpt-4o-mini-2024-07-18/" :=
  ⟨(llm_farm_startup_requirements w_farm_no_key (by decide)).1,
   (llm_farm_startup_requirements w_farm_no_key (by decide)).2.1 "LLM_FARM_API_KEY"
     (by rw [(llm_farm_startup_requirements w_farm_no_key (by decide)).1]; exact List.mem_cons_self _ _)
     rfl,
   (llm_farm_startup_requirements w_farm_no_key (by decide)).2.2 rfl⟩

/-- World for the C10 witness: `USE_LLM_FARM` set to `"1"`, which does not
select the alternate backend. -/
def w_flag_one : World :=
  { getenv := getenvOf [("USE_LLM_FARM", "1"), ("OPENAI_API_KEY", "sk-test"),
      ("TAVILY_API_KEY", "tvly-key")]
    exists_file := fun _ => false
    json_load := fun _ => .error (.fileNotFound "missing.json")
    load_mcp_servers := fun _ => .error (.fileNotFound "missing.json")
    tavily := stubTavily }

/-- C10: the alternate backend is selected iff `USE_LLM_FARM` is set and its
value lower-cases to exactly `"true"`; otherwise the standard backend is
selected and the model handle is the string `"openai:gpt-4o-mini"`. -/
theorem use_llm_farm_iff (w : World) :
    (use_llm_farm w = true ↔
      ∃ s, w.getenv "USE_LLM_FARM" = some s ∧ py_lower s = "true")
    ∧ (use_llm_farm w = false →
        initialize_model w = .providerString "openai:gpt-4o-mini") := by
  constructor
  · unfold use_llm_farm
    cases hg : w.getenv "USE_LLM_FARM" with
    | none => simp [hg]; decide
    | some s => simp [hg]
  · intro h
    simp [initialize_model, h]

/-- Witness for C10: with `USE_LLM_FARM = "1"` the standard backend string is
selected. -/
theorem use_llm_farm_iff_witness :
    initialize_model w_flag_one = .providerString "openai:gpt-4o-mini" :=
  (use_llm_farm_iff w_flag_one).2 (by decide)

end Agent
